import Mathlib

/-!
# Verification of the edge-stack update reconciliation and the Dockerhub migration

Shallow embedding of `updateEdgeStack` (edge-stack HTTP handler) and of
`updateDockerhubToDB32` (DB migration to schema version 32), together with
proofs of the reconciliation, invalidation and idempotence properties.

Maps held in the database (stack store, relation store, the per-relation
`EdgeStacks` map, the on-disk file table) are represented as association
lists keyed by identifiers; the store update operations replace the first
entry with the given key, mirroring a keyed store in which keys are unique.
-/

deriving instance DecidableEq for Except

namespace Portainer

/-! ## Generic keyed-store operations -/

/-- Lookup in an association list (keyed store read). -/
def lookupN {α : Type} : List (Nat × α) → Nat → Option α
  | [], _ => none
  | (k', v) :: rest, k => if k' = k then some v else lookupN rest k

/-- Keyed store write: replace the entry with key `k` (first occurrence). -/
def setN {α : Type} : List (Nat × α) → Nat → α → List (Nat × α)
  | [], _, _ => []
  | (k', v') :: rest, k, v => if k' = k then (k, v) :: rest else (k', v') :: setN rest k v

/-- Go `delete(m, k)` on a map: remove the key `k`. -/
def mdelete : List (Nat × Bool) → Nat → List (Nat × Bool)
  | [], _ => []
  | (k', v) :: rest, k => if k' = k then mdelete rest k else (k', v) :: mdelete rest k

/-- Go `m[k] = v` on a map: assign key `k`, appending it when absent. -/
def massign : List (Nat × Bool) → Nat → Bool → List (Nat × Bool)
  | [], k, v => [(k, v)]
  | (k', v') :: rest, k, v => if k' = k then (k, v) :: rest else (k', v') :: massign rest k v

/-! ## Data model (portainer entity records used by `updateEdgeStack`) -/

/-- `portainer.EdgeStackDeploymentType`: compose (0) or kubernetes (1). -/
inductive DeploymentType
  | compose
  | kubernetes
deriving DecidableEq

/-- `portainer.EdgeStack` (fields read or written by `updateEdgeStack`).
The status map abstracts `EdgeStackStatus` records as plain numbers. -/
structure EdgeStack where
  id : Nat
  edgeGroups : List Nat
  deploymentType : DeploymentType
  entryPoint : String
  manifestPath : String
  useManifestNamespaces : Bool
  version : Int
  status : List (Nat × Nat)
  numDeployments : Nat
  projectPath : String
deriving DecidableEq

/-- `portainer.Endpoint` (identifier, runtime type constant, tags). -/
structure Endpoint where
  id : Nat
  type : Nat
  tagIDs : List Nat
deriving DecidableEq

/-- `portainer.EdgeGroup`: static endpoint list or dynamic tag rule. -/
structure EdgeGroup where
  id : Nat
  dynamic : Bool
  endpoints : List Nat
  tagIDs : List Nat
  partialMatch : Bool
deriving DecidableEq

/-- `updateEdgeStackPayload`; `edgeGroups = none` models a nil Go slice. -/
structure UpdatePayload where
  stackFileContent : String
  version : Option Int
  edgeGroups : Option (List Nat)
  deploymentType : DeploymentType
  useManifestNamespaces : Bool
deriving DecidableEq

/-- The relation store: endpoint ID to that relation's `EdgeStacks` map. -/
abbrev Relations := List (Nat × List (Nat × Bool))

/-- The database state read and written by `updateEdgeStack`. -/
structure DataState where
  edgeStacks : List (Nat × EdgeStack)
  relations : Relations
  endpoints : List Endpoint
  edgeGroups : List EdgeGroup
deriving DecidableEq

/-- On-disk state: existing project directories and stored stack files
(keyed by folder and file name). -/
structure Disk where
  dirs : List String
  files : List ((String × String) × String)
deriving DecidableEq

/-- Database plus disk plus a count of stack-record persist calls. -/
structure SysState where
  db : DataState
  disk : Disk
  stackWrites : Nat
deriving DecidableEq

/-- HTTP error classes of `httperror`. -/
inductive HErrorClass
  | badRequest
  | internalServerError
  | notFound
deriving DecidableEq

/-- An `httperror.HandlerError`: status class plus message. -/
structure HError where
  klass : HErrorClass
  msg : String
deriving DecidableEq

/-! ## File service (`filesystem` collaborator) -/

/-- `filesystem.ComposeFileDefaultName`. -/
def composeFileDefaultName : String := "docker-compose.yml"

/-- `filesystem.ManifestFileDefaultName`. -/
def manifestFileDefaultName : String := "deployment.yml"

/-- `FileService.RemoveDirectory`: best-effort removal, never fails. -/
def removeDirectory (disk : Disk) (path : String) : Disk :=
  { disk with dirs := disk.dirs.filter (fun d => !(d == path)) }

/-- Write a file entry keyed by folder and name (first occurrence replaced). -/
def setFile : List ((String × String) × String) → String × String → String → List ((String × String) × String)
  | [], k, v => [(k, v)]
  | (k', v') :: rest, k, v => if k' = k then (k, v) :: rest else (k', v') :: setFile rest k v

/-- `FileService.StoreEdgeStackFileFromBytes`. -/
def storeFile (disk : Disk) (folder name content : String) : Disk :=
  { disk with files := setFile disk.files (folder, name) content }

/-! ## Membership resolution (spec-modelled collaborators) -/

/-- Tag rule of a dynamic group: any-tag when partial match, all-tags otherwise. -/
def tagsMatch (partialMatch : Bool) (groupTags endpointTags : List Nat) : Bool :=
  if partialMatch then groupTags.any (fun t => endpointTags.contains t)
  else groupTags.all (fun t => endpointTags.contains t)

/-- Endpoints selected by one group: its static list, or the tag-rule matches. -/
def resolveGroup (g : EdgeGroup) (allEndpoints : List Endpoint) : List Nat :=
  if g.dynamic then
    (allEndpoints.filter (fun e => tagsMatch g.partialMatch g.tagIDs e.tagIDs)).map (fun e => e.id)
  else g.endpoints

/-- Modelled from the spec: `edge.EdgeStackRelatedEndpoints` is not in the
source tree; per spec 4.1 the Membership Resolver unions each group's
static list or dynamic tag matches into the resolved set of target
environment identifiers, and fails only when a referenced group ID does
not exist. The result is the resolved set (duplicates removed). -/
def edgeStackRelatedEndpoints : List Nat → List Endpoint → List EdgeGroup → Except String (List Nat)
  | [], _, _ => Except.ok []
  | gid :: rest, eps, groups =>
    match groups.find? (fun g => g.id == gid) with
    | none => Except.error "edge group was not found"
    | some g =>
      match edgeStackRelatedEndpoints rest eps groups with
      | Except.error e => Except.error e
      | Except.ok restIds => Except.ok ((resolveGroup g eps ++ restIds).dedup)

/-- `endpointutils.EndpointSet`: the set of IDs occurring in the list. -/
def endpointSet (l : List Nat) : List Nat := l.dedup

/-! ## Relation reconciliation (lines 115-157 of the handler) -/

/-- `endpointsToRemove`: members of the old resolved set absent from the new one. -/
def removeList (oldS newS : List Nat) : List Nat :=
  (endpointSet oldS).filter (fun e => !(decide (e ∈ endpointSet newS)))

/-- `endpointsToAdd`: members of the new resolved set absent from the old one. -/
def addList (oldS newS : List Nat) : List Nat :=
  (endpointSet newS).filter (fun e => !(decide (e ∈ endpointSet oldS)))

/-- Removal pass: for each endpoint, fetch its relation, delete the stack's
entry from its `EdgeStacks` map, and persist the relation. -/
def removePass (sid : Nat) : List Nat → Relations → Except HError Relations
  | [], rels => Except.ok rels
  | e :: rest, rels =>
    match lookupN rels e with
    | none => Except.error ⟨HErrorClass.internalServerError, "Unable to find environment relation in database"⟩
    | some r => removePass sid rest (setN rels e (mdelete r sid))

/-- Addition pass: for each endpoint, fetch its relation, set the stack's
entry to `true`, and persist the relation. -/
def addPass (sid : Nat) : List Nat → Relations → Except HError Relations
  | [], rels => Except.ok rels
  | e :: rest, rels =>
    match lookupN rels e with
    | none => Except.error ⟨HErrorClass.internalServerError, "Unable to find environment relation in database"⟩
    | some r => addPass sid rest (setN rels e (massign r sid true))

/-- The relation reconciliation of `updateEdgeStack`: remove the stack from
relations of endpoints leaving the target set, add it to relations of
endpoints entering it. -/
def reconcile (sid : Nat) (oldS newS : List Nat) (rels : Relations) : Except HError Relations :=
  match removePass sid (removeList oldS newS) rels with
  | Except.error e => Except.error e
  | Except.ok rels1 => addPass sid (addList oldS newS) rels1

/-! ## Deployment-type guard and content storage -/

/-- Kubernetes runtime types (5 local, 6 agent, 7 edge agent), the
orchestrator variants of the spec. -/
def isKubernetesEndpointType (t : Nat) : Bool := t == 5 || t == 6 || t == 7

/-- Endpoint store read. -/
def findEndpoint (endpoints : List Endpoint) (eid : Nat) : Option Endpoint :=
  endpoints.find? (fun e => e.id == eid)

/-- Fetch each listed endpoint and test the predicate; store-fetch failure
on a missing endpoint surfaces as an error. -/
def anyEndpointWhere (pred : Endpoint → Bool) (endpoints : List Endpoint) : List Nat → Except HError Bool
  | [] => Except.ok false
  | eid :: rest =>
    match findEndpoint endpoints eid with
    | none => Except.error ⟨HErrorClass.internalServerError, "endpoint not found"⟩
    | some e => if pred e then Except.ok true else anyEndpointWhere pred endpoints rest

/-- Modelled from the spec: `hasWrongEnvironmentType` is not in the source
tree; per spec 4.3 orchestrator-manifest stacks may only target
orchestrator-variant environments and compose stacks only the remaining
variants, so a kubernetes deployment is wrong when some target is not an
orchestrator environment and a compose deployment is wrong when some
target is one. -/
def hasWrongEnvironmentType (endpoints : List Endpoint) (relatedIds : List Nat) :
    DeploymentType → Except HError Bool
  | DeploymentType.kubernetes => anyEndpointWhere (fun e => !(isKubernetesEndpointType e.type)) endpoints relatedIds
  | DeploymentType.compose => anyEndpointWhere (fun e => isKubernetesEndpointType e.type) endpoints relatedIds

/-- Modelled from the spec: `convertAndStoreKubeManifestIfNeeded` is not in
the source tree; per spec 4.4 a manifest is derived from the compose
content and persisted only when some targeted environment is
orchestrator-capable, the converter itself being a black box (modelled as
storing the compose content under the default manifest name); when no
target needs it, no manifest path is produced. -/
def convertAndStoreKubeManifestIfNeeded (stackFolder : String) (relatedIds : List Nat)
    (endpoints : List Endpoint) (content : String) (disk : Disk) : Except HError (String × Disk) :=
  match anyEndpointWhere (fun e => isKubernetesEndpointType e.type) endpoints relatedIds with
  | Except.error e => Except.error e
  | Except.ok false => Except.ok ("", disk)
  | Except.ok true =>
    Except.ok (manifestFileDefaultName, storeFile disk stackFolder manifestFileDefaultName content)

/-! ## The steps of `updateEdgeStack` -/

/-- Lines 109-161: when the payload carries a group list, resolve the new
target set, reconcile the relation records, and take over the payload's
group list and the new resolved set. -/
def groupsStep (db : DataState) (stack : EdgeStack) (related0 : List Nat) (p : UpdatePayload) :
    Except HError (EdgeStack × List Nat × DataState) :=
  match p.edgeGroups with
  | none => Except.ok (stack, related0, db)
  | some gs =>
    match edgeStackRelatedEndpoints gs db.endpoints db.edgeGroups with
    | Except.error _ =>
      Except.error ⟨HErrorClass.internalServerError, "Unable to retrieve edge stack related environments from database"⟩
    | Except.ok newRelated =>
      match reconcile stack.id related0 newRelated db.relations with
      | Except.error e => Except.error e
      | Except.ok rels1 =>
        Except.ok ({ stack with edgeGroups := gs }, newRelated, { db with relations := rels1 })

/-- Lines 163-173: on a deployment-type change, remove the old project
directory (best effort) and clear the entry-point and manifest-path fields. -/
def typeStep (stack : EdgeStack) (p : UpdatePayload) (disk : Disk) : EdgeStack × Disk :=
  if stack.deploymentType ≠ p.deploymentType then
    ({ stack with entryPoint := "", manifestPath := "", deploymentType := p.deploymentType },
     removeDirectory disk stack.projectPath)
  else (stack, disk)

/-- Lines 185-214: store the supplied content under the deployment type's
file (defaulting the file name when empty); for compose also derive the
kubernetes manifest when needed, for kubernetes record the namespace flag. -/
def contentStep (stack : EdgeStack) (stackFolder : String) (disk : Disk) (relatedIds : List Nat)
    (endpoints : List Endpoint) (p : UpdatePayload) : Except HError (EdgeStack × Disk) :=
  match p.deploymentType with
  | DeploymentType.compose =>
    let stack1 := if stack.entryPoint = "" then { stack with entryPoint := composeFileDefaultName } else stack
    let disk1 := storeFile disk stackFolder stack1.entryPoint p.stackFileContent
    match convertAndStoreKubeManifestIfNeeded stackFolder relatedIds endpoints p.stackFileContent disk1 with
    | Except.error e => Except.error e
    | Except.ok md => Except.ok ({ stack1 with manifestPath := md.1 }, md.2)
  | DeploymentType.kubernetes =>
    let stack1 := if stack.manifestPath = "" then { stack with manifestPath := manifestFileDefaultName } else stack
    let stack2 := { stack1 with useManifestNamespaces := p.useManifestNamespaces }
    Except.ok (stack2, storeFile disk stackFolder stack2.manifestPath p.stackFileContent)

/-- Line 216: the version is updated when the payload carries a version
different from the stored one. -/
def versionUpdatedFlag (p : UpdatePayload) (stack : EdgeStack) : Bool :=
  match p.version with
  | some v => decide (v ≠ stack.version)
  | none => false

/-- Lines 216-226: on a version change take the requested version and reset
the status map; always recompute the deployment count; the second
status reset (lines 224-226) repeats the first. -/
def finalizeStack (stack : EdgeStack) (related : List Nat) (p : UpdatePayload) : EdgeStack :=
  let stack4 :=
    match p.version with
    | some v => if v ≠ stack.version then { stack with version := v, status := [] } else stack
    | none => stack
  let stack5 := { stack4 with numDeployments := related.length }
  if versionUpdatedFlag p stack then { stack5 with status := [] } else stack5

/-- `updateEdgeStack` (lines 91-234): fetch the stack, resolve the old
target set, reconcile relations for a supplied group list, handle a
deployment-type change, run the environment-type guard, store content,
apply version/status invalidation, and persist the stack record once.
The reached database, disk and persist count are returned alongside the
result; a surrounding transaction may further discard database writes of
failed runs (`edgeStackUpdateTx`). -/
def updateEdgeStack (st : SysState) (sid : Nat) (p : UpdatePayload) :
    Except HError EdgeStack × SysState :=
  match lookupN st.db.edgeStacks sid with
  | none =>
    (Except.error ⟨HErrorClass.notFound, "Unable to find a stack with the specified identifier inside the database"⟩, st)
  | some stack0 =>
    match edgeStackRelatedEndpoints stack0.edgeGroups st.db.endpoints st.db.edgeGroups with
    | Except.error _ =>
      (Except.error ⟨HErrorClass.internalServerError, "Unable to retrieve edge stack related environments from database"⟩, st)
    | Except.ok related0 =>
      match groupsStep st.db stack0 related0 p with
      | Except.error e => (Except.error e, st)
      | Except.ok gres =>
        match hasWrongEnvironmentType gres.2.2.endpoints gres.2.1 p.deploymentType with
        | Except.error _ =>
          (Except.error ⟨HErrorClass.badRequest, "unable to check for existence of non fitting environments"⟩,
           { st with db := gres.2.2, disk := (typeStep gres.1 p st.disk).2 })
        | Except.ok true =>
          (Except.error ⟨HErrorClass.badRequest, "edge stack with config do not match the environment type"⟩,
           { st with db := gres.2.2, disk := (typeStep gres.1 p st.disk).2 })
        | Except.ok false =>
          match contentStep (typeStep gres.1 p st.disk).1 (toString gres.1.id) (typeStep gres.1 p st.disk).2
              gres.2.1 gres.2.2.endpoints p with
          | Except.error e => (Except.error e, { st with db := gres.2.2, disk := (typeStep gres.1 p st.disk).2 })
          | Except.ok cres =>
            (Except.ok (finalizeStack cres.1 gres.2.1 p),
             { db := { gres.2.2 with
                         edgeStacks := setN gres.2.2.edgeStacks (finalizeStack cres.1 gres.2.1 p).id (finalizeStack cres.1 gres.2.1 p) },
               disk := cres.2,
               stackWrites := st.stackWrites + 1 })

/-- The transactional wrapper of the handler (lines 73-77): on failure the
database writes are rolled back while file-system effects remain. -/
def edgeStackUpdateTx (st : SysState) (sid : Nat) (p : UpdatePayload) :
    Except HError EdgeStack × SysState :=
  match updateEdgeStack st sid p with
  | (Except.ok s, st') => (Except.ok s, st')
  | (Except.error e, st') => (Except.error e, { st' with db := st.db, stackWrites := st.stackWrites })

/-! ## The Dockerhub migration (`migrate_dbversion31.go`) -/

/-- `portainer.Registry` (fields used by the migration); access policies
are abstracted to the list of endpoint IDs granted access. -/
structure Registry where
  id : Nat
  rtype : Nat
  name : String
  url : String
  authentication : Bool
  username : String
  password : String
  registryAccesses : List Nat
deriving DecidableEq

/-- The legacy `portainer.DockerHub` settings record. -/
structure DockerHub where
  authentication : Bool
  username : String
  password : String
deriving DecidableEq

/-- The store state seen by `updateDockerhubToDB32`; `nextRegistryID` is
the store's ID sequence used by `Create`. -/
structure MigratorState where
  dockerhub : Option DockerHub
  registries : List Registry
  endpoints : List Endpoint
  nextRegistryID : Nat
deriving DecidableEq

/-- Name given to the migrated Dockerhub registry. -/
def dockerhubMigratedName : String := "Dockerhub (authenticated - migrated)"

/-- Line 116-119 match: same type (`DockerHubRegistry` = 6), name, URL and
authentication flag as the migrated entry. -/
def matchesMigratedRegistry (r : Registry) : Bool :=
  r.rtype == 6 && r.name == dockerhubMigratedName && r.url == "docker.io" && r.authentication == true

/-- `registryService.DeleteRegistry`: remove the registry with the given ID. -/
def deleteRegistry (l : List Registry) (rid : Nat) : List Registry :=
  l.filter (fun r => !(r.id == rid))

/-- Lines 113-129: scan the registry snapshot; keep the first entry matching
the migrated template, delete every subsequent match from the store. -/
def scanRegistries : List Registry → Bool → List Registry → Bool × List Registry
  | [], migrated, store => (migrated, store)
  | r :: rest, migrated, store =>
    if matchesMigratedRegistry r then
      if migrated then scanRegistries rest true (deleteRegistry store r.id)
      else scanRegistries rest true store
    else scanRegistries rest migrated store

/-- Lines 140-170: only non-kubernetes endpoints receive access entries on
the migrated registry. -/
def registryAccessesForEndpoints (endpoints : List Endpoint) : List Nat :=
  (endpoints.filter (fun e => !(isKubernetesEndpointType e.type))).map (fun e => e.id)

/-- `updateDockerhubToDB32` (lines 85-173): no-op without an authenticated
legacy Dockerhub record; otherwise deduplicate previously migrated
entries, and create the migrated registry only when none existed. -/
def updateDockerhubToDB32 (m : MigratorState) : Except String MigratorState :=
  match m.dockerhub with
  | none => Except.ok m
  | some dockerhub =>
    if !dockerhub.authentication then Except.ok m
    else
      let scan := scanRegistries m.registries false m.registries
      if scan.1 then Except.ok { m with registries := scan.2 }
      else
        let registry : Registry :=
          { id := m.nextRegistryID, rtype := 6, name := dockerhubMigratedName, url := "docker.io",
            authentication := true, username := dockerhub.username, password := dockerhub.password,
            registryAccesses := registryAccessesForEndpoints m.endpoints }
        Except.ok { m with registries := scan.2 ++ [registry], nextRegistryID := m.nextRegistryID + 1 }

/-- The deduplication described by the migration's comment (lines 109-112):
keep the first matching entry, drop every later match, leave the rest. -/
def keepFirstMatching : List Registry → List Registry
  | [] => []
  | r :: rest =>
    if matchesMigratedRegistry r then r :: rest.filter (fun x => !(matchesMigratedRegistry x))
    else r :: keepFirstMatching rest

/-- IDs of the matching entries situated after the first match: exactly the
registries the scan loop deletes. -/
def dupRegistryIds : List Registry → List Nat
  | [] => []
  | r :: rest =>
    if matchesMigratedRegistry r then (rest.filter matchesMigratedRegistry).map (fun x => x.id)
    else dupRegistryIds rest

/-- A registry entry shaped like the migrated Dockerhub entry, with the
given ID and name. -/
def exRegistry (i : Nat) (nm : String) : Registry :=
  { id := i, rtype := 6, name := nm, url := "docker.io", authentication := true,
    username := "u", password := "p", registryAccesses := [] }

/-- Migrator state holding one unrelated registry and three migrated
duplicates. -/
def exMigState : MigratorState :=
  { dockerhub := some ⟨true, "u", "p"⟩,
    registries := [exRegistry 1 "other", exRegistry 2 dockerhubMigratedName,
                   exRegistry 3 dockerhubMigratedName, exRegistry 4 dockerhubMigratedName],
    endpoints := [⟨1, 4, []⟩], nextRegistryID := 10 }


/-- Consistency of a stack record per the spec's data-model invariant: a
compose stack carries an entry point and no manifest path, a kubernetes
stack carries a manifest path and no entry point. -/
def stackConsistent (s : EdgeStack) : Prop :=
  (s.deploymentType = DeploymentType.compose → s.entryPoint ≠ "" ∧ s.manifestPath = "") ∧
  (s.deploymentType = DeploymentType.kubernetes → s.manifestPath ≠ "" ∧ s.entryPoint = "")

instance (s : EdgeStack) : Decidable (stackConsistent s) := by
  unfold stackConsistent; infer_instance

/-! ## Concrete states used by witnesses and counterexamples -/

/-- A compose stack targeting group 1 (endpoint 1). -/
def exStack : EdgeStack :=
  { id := 1, edgeGroups := [1], deploymentType := DeploymentType.compose,
    entryPoint := "docker-compose.yml", manifestPath := "", useManifestNamespaces := false,
    version := 1, status := [(1, 7)], numDeployments := 1, projectPath := "p1" }

/-- Base system state: stack 1 on endpoint 1; endpoints 1 and 2 are docker
(type 4), endpoint 3 is an edge kubernetes agent (type 7); static groups
1 -> endpoint 1, 2 -> endpoint 2 and 3 -> endpoint 3. -/
def exState : SysState :=
  { db := { edgeStacks := [(1, exStack)],
            relations := [(1, [(1, true)]), (2, []), (3, [])],
            endpoints := [⟨1, 4, []⟩, ⟨2, 4, []⟩, ⟨3, 7, []⟩],
            edgeGroups := [⟨1, false, [1], [], false⟩, ⟨2, false, [2], [], false⟩,
                           ⟨3, false, [3], [], false⟩] },
    disk := { dirs := ["p1"], files := [] },
    stackWrites := 0 }

/-- Payload resending the stored version (no invalidation expected). -/
def exPayloadVersionSame : UpdatePayload :=
  { stackFileContent := "update-test", version := some 1, edgeGroups := some [1],
    deploymentType := DeploymentType.compose, useManifestNamespaces := false }

/-- Payload bumping the version from 1 to 238. -/
def exPayloadVersionBump : UpdatePayload :=
  { stackFileContent := "update-test", version := some 238, edgeGroups := some [1],
    deploymentType := DeploymentType.compose, useManifestNamespaces := false }

/-- Payload switching the stack to kubernetes on the kubernetes endpoint 3. -/
def exPayloadTypeChange : UpdatePayload :=
  { stackFileContent := "update-test", version := none, edgeGroups := some [3],
    deploymentType := DeploymentType.kubernetes, useManifestNamespaces := true }

/-- Payload adding group 2 (endpoint 2) beside group 1 (endpoint 1). -/
def exPayloadAddGroup : UpdatePayload :=
  { stackFileContent := "update-test", version := some 238, edgeGroups := some [1, 2],
    deploymentType := DeploymentType.compose, useManifestNamespaces := false }

/-- Payload requesting a kubernetes deployment on the docker endpoint 2. -/
def exPayloadWrongType : UpdatePayload :=
  { stackFileContent := "c", version := none, edgeGroups := some [2],
    deploymentType := DeploymentType.kubernetes, useManifestNamespaces := false }

/-- Payload referencing the non-existent group 9999. -/
def exPayloadUnknownGroup : UpdatePayload :=
  { stackFileContent := "error-test", version := some 238, edgeGroups := some [9999],
    deploymentType := DeploymentType.compose, useManifestNamespaces := false }

/-- The stack produced by the same-version run. -/
def outVersionSame : EdgeStack :=
  match (updateEdgeStack exState 1 exPayloadVersionSame).1 with
  | Except.ok s => s
  | Except.error _ => exStack

/-- The system state produced by the same-version run. -/
def outVersionSameSt : SysState := (updateEdgeStack exState 1 exPayloadVersionSame).2

/-- The stack produced by the version-bump run. -/
def outVersionBump : EdgeStack :=
  match (updateEdgeStack exState 1 exPayloadVersionBump).1 with
  | Except.ok s => s
  | Except.error _ => exStack

/-- The system state produced by the version-bump run. -/
def outVersionBumpSt : SysState := (updateEdgeStack exState 1 exPayloadVersionBump).2

/-- The stack produced by the deployment-type-change run. -/
def outTypeChange : EdgeStack :=
  match (updateEdgeStack exState 1 exPayloadTypeChange).1 with
  | Except.ok s => s
  | Except.error _ => exStack

/-- The system state produced by the deployment-type-change run. -/
def outTypeChangeSt : SysState := (updateEdgeStack exState 1 exPayloadTypeChange).2

/-- The stack produced by the add-group run. -/
def outAddGroup : EdgeStack :=
  match (updateEdgeStack exState 1 exPayloadAddGroup).1 with
  | Except.ok s => s
  | Except.error _ => exStack

/-- The system state produced by the add-group run. -/
def outAddGroupSt : SysState := (updateEdgeStack exState 1 exPayloadAddGroup).2

/-! ## Keyed-store lemmas -/

theorem lookupN_setN_ne {α : Type} {m : List (Nat × α)} {e k : Nat} {v : α}
    (h : k ≠ e) : lookupN (setN m e v) k = lookupN m k := by
  induction m with
  | nil => rfl
  | cons p rest ih =>
    obtain ⟨k', v'⟩ := p
    by_cases hk : k' = e
    · subst hk
      simp [setN, lookupN, Ne.symm h]
    · simp only [setN, if_neg hk, lookupN]
      by_cases hkk : k' = k
      · simp [hkk]
      · simp [hkk, ih]

theorem lookupN_setN_self {α : Type} {m : List (Nat × α)} {e : Nat} {w v : α}
    (h : lookupN m e = some w) : lookupN (setN m e v) e = some v := by
  induction m with
  | nil => simp [lookupN] at h
  | cons p rest ih =>
    obtain ⟨k', v'⟩ := p
    by_cases hk : k' = e
    · subst hk; simp [setN, lookupN]
    · simp only [lookupN, if_neg hk] at h
      simp only [setN, if_neg hk, lookupN, if_neg hk]
      exact ih h

theorem setN_lookup_eq {α : Type} {m : List (Nat × α)} {e : Nat} {v : α}
    (h : lookupN m e = some v) : setN m e v = m := by
  induction m with
  | nil => simp [lookupN] at h
  | cons p rest ih =>
    obtain ⟨k', v'⟩ := p
    by_cases hk : k' = e
    · subst hk
      have h' : v' = v := by simpa [lookupN] using h
      subst h'
      simp [setN]
    · simp only [lookupN, if_neg hk] at h
      simp [setN, hk, ih h]

theorem mdelete_idem (m : List (Nat × Bool)) (k : Nat) :
    mdelete (mdelete m k) k = mdelete m k := by
  induction m with
  | nil => rfl
  | cons p rest ih =>
    obtain ⟨k', v⟩ := p
    by_cases hk : k' = k
    · simp [mdelete, hk, ih]
    · simp [mdelete, hk, ih]

theorem massign_idem (m : List (Nat × Bool)) (k : Nat) (v : Bool) :
    massign (massign m k v) k v = massign m k v := by
  induction m with
  | nil => simp [massign]
  | cons p rest ih =>
    obtain ⟨k', v'⟩ := p
    by_cases hk : k' = k
    · simp [massign, hk]
    · simp [massign, hk, ih]

/-! ## Reconciliation-pass lemmas -/

theorem mem_removeList {oldS newS : List Nat} {e : Nat} :
    e ∈ removeList oldS newS ↔ e ∈ oldS ∧ e ∉ newS := by
  simp [removeList, endpointSet, List.mem_filter]

theorem mem_addList {oldS newS : List Nat} {e : Nat} :
    e ∈ addList oldS newS ↔ e ∈ newS ∧ e ∉ oldS := by
  simp [addList, endpointSet, List.mem_filter]

theorem removePass_not_mem {sid : Nat} {R : List Nat} {rels rels' : Relations} {e : Nat}
    (h : removePass sid R rels = Except.ok rels') (he : e ∉ R) :
    lookupN rels' e = lookupN rels e := by
  induction R generalizing rels with
  | nil =>
    simp only [removePass] at h
    injection h with h
    rw [h]
  | cons a rest ih =>
    simp only [removePass] at h
    cases hv : lookupN rels a with
    | none => rw [hv] at h; exact Except.noConfusion h
    | some r =>
      rw [hv] at h
      have hne : e ≠ a := fun hh => he (hh ▸ List.mem_cons_self a rest)
      have hr : e ∉ rest := fun hh => he (List.mem_cons_of_mem a hh)
      rw [ih h hr, lookupN_setN_ne hne]

theorem removePass_mem {sid : Nat} {R : List Nat} {rels rels' : Relations} {e : Nat}
    (h : removePass sid R rels = Except.ok rels') (he : e ∈ R) :
    ∃ v, lookupN rels' e = some (mdelete v sid) := by
  induction R generalizing rels with
  | nil => cases he
  | cons a rest ih =>
    simp only [removePass] at h
    cases hv : lookupN rels a with
    | none => rw [hv] at h; exact Except.noConfusion h
    | some r =>
      rw [hv] at h
      by_cases hmem : e ∈ rest
      · exact ih h hmem
      · have hea : e = a := by
          rcases List.mem_cons.mp he with h1 | h2
          · exact h1
          · exact absurd h2 hmem
        subst hea
        refine ⟨r, ?_⟩
        rw [removePass_not_mem h hmem]
        exact lookupN_setN_self hv

theorem removePass_stable {sid : Nat} {R : List Nat} {rels : Relations}
    (h : ∀ e ∈ R, ∃ v, lookupN rels e = some v ∧ mdelete v sid = v) :
    removePass sid R rels = Except.ok rels := by
  induction R with
  | nil => rfl
  | cons a rest ih =>
    obtain ⟨v, hv, hd⟩ := h a (List.mem_cons_self a rest)
    have hstep : removePass sid (a :: rest) rels = removePass sid rest (setN rels a (mdelete v sid)) := by
      simp only [removePass, hv]
    rw [hstep, hd, setN_lookup_eq hv]
    exact ih (fun e he => h e (List.mem_cons_of_mem a he))

theorem addPass_not_mem {sid : Nat} {A : List Nat} {rels rels' : Relations} {e : Nat}
    (h : addPass sid A rels = Except.ok rels') (he : e ∉ A) :
    lookupN rels' e = lookupN rels e := by
  induction A generalizing rels with
  | nil =>
    simp only [addPass] at h
    injection h with h
    rw [h]
  | cons a rest ih =>
    simp only [addPass] at h
    cases hv : lookupN rels a with
    | none => rw [hv] at h; exact Except.noConfusion h
    | some r =>
      rw [hv] at h
      have hne : e ≠ a := fun hh => he (hh ▸ List.mem_cons_self a rest)
      have hr : e ∉ rest := fun hh => he (List.mem_cons_of_mem a hh)
      rw [ih h hr, lookupN_setN_ne hne]

theorem addPass_mem {sid : Nat} {A : List Nat} {rels rels' : Relations} {e : Nat}
    (h : addPass sid A rels = Except.ok rels') (he : e ∈ A) :
    ∃ v, lookupN rels' e = some (massign v sid true) := by
  induction A generalizing rels with
  | nil => cases he
  | cons a rest ih =>
    simp only [addPass] at h
    cases hv : lookupN rels a with
    | none => rw [hv] at h; exact Except.noConfusion h
    | some r =>
      rw [hv] at h
      by_cases hmem : e ∈ rest
      · exact ih h hmem
      · have hea : e = a := by
          rcases List.mem_cons.mp he with h1 | h2
          · exact h1
          · exact absurd h2 hmem
        subst hea
        refine ⟨r, ?_⟩
        rw [addPass_not_mem h hmem]
        exact lookupN_setN_self hv

theorem addPass_stable {sid : Nat} {A : List Nat} {rels : Relations}
    (h : ∀ e ∈ A, ∃ v, lookupN rels e = some v ∧ massign v sid true = v) :
    addPass sid A rels = Except.ok rels := by
  induction A with
  | nil => rfl
  | cons a rest ih =>
    obtain ⟨v, hv, hd⟩ := h a (List.mem_cons_self a rest)
    have hstep : addPass sid (a :: rest) rels = addPass sid rest (setN rels a (massign v sid true)) := by
      simp only [addPass, hv]
    rw [hstep, hd, setN_lookup_eq hv]
    exact ih (fun e he => h e (List.mem_cons_of_mem a he))

theorem reconcile_ok_elim {sid : Nat} {oldS newS : List Nat} {rels rels' : Relations}
    (h : reconcile sid oldS newS rels = Except.ok rels') :
    ∃ rels1, removePass sid (removeList oldS newS) rels = Except.ok rels1 ∧
      addPass sid (addList oldS newS) rels1 = Except.ok rels' := by
  unfold reconcile at h
  cases hr : removePass sid (removeList oldS newS) rels with
  | error e => rw [hr] at h; exact Except.noConfusion h
  | ok rels1 => rw [hr] at h; exact ⟨rels1, rfl, h⟩
/-- C2: for every stack ID and every pair of old and new resolved
environment sets, running the relation reconciliation (remove the stack
entry for `oldSet` minus `newSet`, set the stack entry true for `newSet`
minus `oldSet`) twice with the same pair of sets yields the same relation
state as running it once. -/
theorem reconcile_idempotent (sid : Nat) (oldS newS : List Nat) (rels rels' : Relations)
    (h : reconcile sid oldS newS rels = Except.ok rels') :
    reconcile sid oldS newS rels' = Except.ok rels' := by
  obtain ⟨rels1, hrem, hadd⟩ := reconcile_ok_elim h
  have hremStable : removePass sid (removeList oldS newS) rels' = Except.ok rels' := by
    apply removePass_stable
    intro e he
    obtain ⟨v, hv⟩ := removePass_mem hrem he
    have hnotAdd : e ∉ addList oldS newS := by
      rw [mem_removeList] at he
      rw [mem_addList]
      exact fun hc => he.2 hc.1
    refine ⟨mdelete v sid, ?_, mdelete_idem v sid⟩
    rw [addPass_not_mem hadd hnotAdd, hv]
  unfold reconcile
  rw [hremStable]
  show addPass sid (addList oldS newS) rels' = Except.ok rels'
  apply addPass_stable
  intro e he
  obtain ⟨v, hv⟩ := addPass_mem hadd he
  exact ⟨massign v sid true, hv, massign_idem v sid true⟩

/-- Witness for C2: a concrete delta moving stack 5 from endpoint 1 to
endpoint 2, reconciled once and then a second time. -/
theorem reconcile_idempotent_witness :
    reconcile 5 [1] [2] [(1, [(5, true)]), (2, [])] = Except.ok [(1, []), (2, [(5, true)])] ∧
    reconcile 5 [1] [2] [(1, []), (2, [(5, true)])] = Except.ok [(1, []), (2, [(5, true)])] :=
  ⟨by decide,
   reconcile_idempotent 5 [1] [2] [(1, [(5, true)]), (2, [])] [(1, []), (2, [(5, true)])] (by decide)⟩

/-- C3: for every environment present in both the old and the new resolved
target set, reconciliation leaves that environment's relation record, and
in particular its membership flag for the stack, exactly as it was. -/
theorem reconcile_frame_intersection (sid : Nat) (oldS newS : List Nat) (rels rels' : Relations)
    (e : Nat) (h : reconcile sid oldS newS rels = Except.ok rels')
    (h1 : e ∈ oldS) (h2 : e ∈ newS) :
    lookupN rels' e = lookupN rels e ∧
    (lookupN rels' e).map (fun r => lookupN r sid) = (lookupN rels e).map (fun r => lookupN r sid) := by
  obtain ⟨rels1, hrem, hadd⟩ := reconcile_ok_elim h
  have hnr : e ∉ removeList oldS newS := by
    rw [mem_removeList]; exact fun hc => hc.2 h2
  have hna : e ∉ addList oldS newS := by
    rw [mem_addList]; exact fun hc => hc.2 h1
  have hrec : lookupN rels' e = lookupN rels e := by
    rw [addPass_not_mem hadd hna, removePass_not_mem hrem hnr]
  exact ⟨hrec, by rw [hrec]⟩

/-- Witness for C3: endpoint 2 lies in both target sets and keeps its
relation record across the reconciliation. -/
theorem reconcile_frame_intersection_witness :
    reconcile 5 [1, 2] [2, 3] [(1, [(5, true)]), (2, [(5, true)]), (3, [])] =
      Except.ok [(1, []), (2, [(5, true)]), (3, [(5, true)])] ∧
    (2 : Nat) ∈ [1, 2] ∧ (2 : Nat) ∈ [2, 3] ∧
    lookupN [(1, []), (2, [(5, true)]), (3, [(5, true)])] 2 =
      lookupN [(1, [(5, true)]), (2, [(5, true)]), (3, [])] 2 :=
  ⟨by decide, by decide, by decide,
   (reconcile_frame_intersection 5 [1, 2] [2, 3]
     [(1, [(5, true)]), (2, [(5, true)]), (3, [])]
     [(1, []), (2, [(5, true)]), (3, [(5, true)])] 2
     (by decide) (by decide) (by decide)).1⟩
/-! ## Step lemmas for `updateEdgeStack` -/

theorem typeStep_deploymentType (s : EdgeStack) (p : UpdatePayload) (d : Disk) :
    (typeStep s p d).1.deploymentType = p.deploymentType := by
  unfold typeStep
  by_cases h : s.deploymentType = p.deploymentType
  · simp [h]
  · simp [h]

theorem typeStep_fields (s : EdgeStack) (p : UpdatePayload) (d : Disk) :
    (typeStep s p d).1.id = s.id ∧ (typeStep s p d).1.edgeGroups = s.edgeGroups ∧
    (typeStep s p d).1.version = s.version ∧ (typeStep s p d).1.status = s.status ∧
    (typeStep s p d).1.numDeployments = s.numDeployments ∧
    (typeStep s p d).1.projectPath = s.projectPath ∧
    (typeStep s p d).1.useManifestNamespaces = s.useManifestNamespaces := by
  unfold typeStep
  by_cases h : s.deploymentType = p.deploymentType
  · simp [h]
  · simp [h]

theorem typeStep_changed {s : EdgeStack} {p : UpdatePayload} (d : Disk)
    (h : s.deploymentType ≠ p.deploymentType) :
    (typeStep s p d).1.entryPoint = "" ∧ (typeStep s p d).1.manifestPath = "" ∧
    (typeStep s p d).2 = removeDirectory d s.projectPath := by
  unfold typeStep
  simp [h]

theorem typeStep_unchanged {s : EdgeStack} {p : UpdatePayload} (d : Disk)
    (h : s.deploymentType = p.deploymentType) :
    typeStep s p d = (s, d) := by
  unfold typeStep
  simp [h]

theorem finalizeStack_fields (s : EdgeStack) (related : List Nat) (p : UpdatePayload) :
    (finalizeStack s related p).id = s.id ∧
    (finalizeStack s related p).edgeGroups = s.edgeGroups ∧
    (finalizeStack s related p).deploymentType = s.deploymentType ∧
    (finalizeStack s related p).entryPoint = s.entryPoint ∧
    (finalizeStack s related p).manifestPath = s.manifestPath ∧
    (finalizeStack s related p).useManifestNamespaces = s.useManifestNamespaces ∧
    (finalizeStack s related p).projectPath = s.projectPath ∧
    (finalizeStack s related p).numDeployments = related.length := by
  unfold finalizeStack versionUpdatedFlag
  cases hv : p.version with
  | none => simp
  | some v =>
    by_cases hne : v = s.version
    · simp [hne]
    · simp [hne]

theorem finalizeStack_version_none {s : EdgeStack} {related : List Nat} {p : UpdatePayload}
    (hv : p.version = none) :
    (finalizeStack s related p).version = s.version ∧
    (finalizeStack s related p).status = s.status := by
  unfold finalizeStack versionUpdatedFlag
  simp [hv]

theorem finalizeStack_version_eq {s : EdgeStack} {related : List Nat} {p : UpdatePayload}
    (hv : p.version = some s.version) :
    (finalizeStack s related p).version = s.version ∧
    (finalizeStack s related p).status = s.status := by
  unfold finalizeStack versionUpdatedFlag
  simp [hv]

theorem finalizeStack_version_ne {s : EdgeStack} {related : List Nat} {p : UpdatePayload} {v : Int}
    (hv : p.version = some v) (hne : v ≠ s.version) :
    (finalizeStack s related p).version = v ∧
    (finalizeStack s related p).status = [] := by
  unfold finalizeStack versionUpdatedFlag
  simp [hv, hne]
theorem groupsStep_none {db : DataState} {stack : EdgeStack} {rel0 : List Nat} {p : UpdatePayload}
    (h : p.edgeGroups = none) : groupsStep db stack rel0 p = Except.ok (stack, rel0, db) := by
  simp only [groupsStep, h]

theorem groupsStep_fields {db : DataState} {stack : EdgeStack} {rel0 : List Nat} {p : UpdatePayload}
    {res : EdgeStack × List Nat × DataState}
    (h : groupsStep db stack rel0 p = Except.ok res) :
    res.1.id = stack.id ∧ res.1.deploymentType = stack.deploymentType ∧
    res.1.entryPoint = stack.entryPoint ∧ res.1.manifestPath = stack.manifestPath ∧
    res.1.version = stack.version ∧ res.1.status = stack.status ∧
    res.1.projectPath = stack.projectPath ∧
    res.1.useManifestNamespaces = stack.useManifestNamespaces ∧
    res.1.numDeployments = stack.numDeployments ∧
    res.2.2.edgeStacks = db.edgeStacks ∧ res.2.2.endpoints = db.endpoints ∧
    res.2.2.edgeGroups = db.edgeGroups := by
  cases hgs : p.edgeGroups with
  | none =>
    simp only [groupsStep, hgs, Except.ok.injEq] at h
    subst h
    simp
  | some gs =>
    cases h1 : edgeStackRelatedEndpoints gs db.endpoints db.edgeGroups with
    | error e =>
      simp only [groupsStep, hgs, h1] at h
      exact Except.noConfusion h
    | ok newRelated =>
      cases h2 : reconcile stack.id rel0 newRelated db.relations with
      | error e =>
        simp only [groupsStep, hgs, h1, h2] at h
        exact Except.noConfusion h
      | ok rels1 =>
        simp only [groupsStep, hgs, h1, h2, Except.ok.injEq] at h
        subst h
        simp

theorem groupsStep_some_elim {db : DataState} {stack : EdgeStack} {rel0 : List Nat}
    {p : UpdatePayload} {gs : List Nat} {res : EdgeStack × List Nat × DataState}
    (hgs : p.edgeGroups = some gs)
    (h : groupsStep db stack rel0 p = Except.ok res) :
    ∃ newRelated rels1,
      edgeStackRelatedEndpoints gs db.endpoints db.edgeGroups = Except.ok newRelated ∧
      reconcile stack.id rel0 newRelated db.relations = Except.ok rels1 ∧
      res = ({ stack with edgeGroups := gs }, newRelated, { db with relations := rels1 }) := by
  cases h1 : edgeStackRelatedEndpoints gs db.endpoints db.edgeGroups with
  | error e =>
    simp only [groupsStep, hgs, h1] at h
    exact Except.noConfusion h
  | ok newRelated =>
    cases h2 : reconcile stack.id rel0 newRelated db.relations with
    | error e =>
      simp only [groupsStep, hgs, h1, h2] at h
      exact Except.noConfusion h
    | ok rels1 =>
      simp only [groupsStep, hgs, h1, h2, Except.ok.injEq] at h
      exact ⟨newRelated, rels1, rfl, h2, h.symm⟩

theorem hasWrong_compose (eps : List Endpoint) (r : List Nat) :
    hasWrongEnvironmentType eps r DeploymentType.compose =
      anyEndpointWhere (fun e => isKubernetesEndpointType e.type) eps r := rfl

theorem contentStep_compose_ok {stack : EdgeStack} {f : String} {d : Disk} {r : List Nat}
    {eps : List Endpoint} {p : UpdatePayload} {res : EdgeStack × Disk}
    (hdt : p.deploymentType = DeploymentType.compose)
    (hk : anyEndpointWhere (fun e => isKubernetesEndpointType e.type) eps r = Except.ok false)
    (h : contentStep stack f d r eps p = Except.ok res) :
    res.1 = { stack with
              entryPoint := if stack.entryPoint = "" then composeFileDefaultName else stack.entryPoint,
              manifestPath := "" } := by
  by_cases he : stack.entryPoint = ""
  · simp only [contentStep, hdt, convertAndStoreKubeManifestIfNeeded, hk, he, if_pos,
      Except.ok.injEq] at h
    rw [← h]
    simp [he]
  · simp only [contentStep, hdt, convertAndStoreKubeManifestIfNeeded, hk, he, if_neg,
      Except.ok.injEq] at h
    rw [← h]
    simp [he]

theorem contentStep_kubernetes_ok {stack : EdgeStack} {f : String} {d : Disk} {r : List Nat}
    {eps : List Endpoint} {p : UpdatePayload} {res : EdgeStack × Disk}
    (hdt : p.deploymentType = DeploymentType.kubernetes)
    (h : contentStep stack f d r eps p = Except.ok res) :
    res.1 = { stack with
              manifestPath := if stack.manifestPath = "" then manifestFileDefaultName else stack.manifestPath,
              useManifestNamespaces := p.useManifestNamespaces } := by
  by_cases hm : stack.manifestPath = ""
  · simp only [contentStep, hdt, hm, if_pos, Except.ok.injEq] at h
    rw [← h]
    simp [hm]
  · simp only [contentStep, hdt, hm, if_neg, Except.ok.injEq] at h
    rw [← h]
    simp [hm]

theorem updateEdgeStack_ok_elim {st : SysState} {sid : Nat} {p : UpdatePayload}
    {stack' : EdgeStack} {st' : SysState}
    (hrun : updateEdgeStack st sid p = (Except.ok stack', st')) :
    ∃ stack0 related0 gres cres,
      lookupN st.db.edgeStacks sid = some stack0 ∧
      edgeStackRelatedEndpoints stack0.edgeGroups st.db.endpoints st.db.edgeGroups = Except.ok related0 ∧
      groupsStep st.db stack0 related0 p = Except.ok gres ∧
      hasWrongEnvironmentType gres.2.2.endpoints gres.2.1 p.deploymentType = Except.ok false ∧
      contentStep (typeStep gres.1 p st.disk).1 (toString gres.1.id) (typeStep gres.1 p st.disk).2
        gres.2.1 gres.2.2.endpoints p = Except.ok cres ∧
      stack' = finalizeStack cres.1 gres.2.1 p ∧
      st' = { db := { gres.2.2 with
                        edgeStacks := setN gres.2.2.edgeStacks (finalizeStack cres.1 gres.2.1 p).id
                          (finalizeStack cres.1 gres.2.1 p) },
              disk := cres.2, stackWrites := st.stackWrites + 1 } := by
  cases h0 : lookupN st.db.edgeStacks sid with
  | none => simp [updateEdgeStack, h0] at hrun
  | some stack0 =>
    cases h1 : edgeStackRelatedEndpoints stack0.edgeGroups st.db.endpoints st.db.edgeGroups with
    | error e => simp [updateEdgeStack, h0, h1] at hrun
    | ok related0 =>
      cases h2 : groupsStep st.db stack0 related0 p with
      | error e => simp [updateEdgeStack, h0, h1, h2] at hrun
      | ok gres =>
        cases h3 : hasWrongEnvironmentType gres.2.2.endpoints gres.2.1 p.deploymentType with
        | error e => simp [updateEdgeStack, h0, h1, h2, h3] at hrun
        | ok b =>
          cases b with
          | true => simp [updateEdgeStack, h0, h1, h2, h3] at hrun
          | false =>
            cases h4 : contentStep (typeStep gres.1 p st.disk).1 (toString gres.1.id)
                (typeStep gres.1 p st.disk).2 gres.2.1 gres.2.2.endpoints p with
            | error e => simp [updateEdgeStack, h0, h1, h2, h3, h4] at hrun
            | ok cres =>
              simp only [updateEdgeStack, h0, h1, h2, h3, h4, Prod.mk.injEq,
                Except.ok.injEq] at hrun
              exact ⟨stack0, related0, gres, cres, rfl, h1, h2, h3, h4, hrun.1.symm, hrun.2.symm⟩

theorem updateEdgeStack_wrongType_eq {st : SysState} {sid : Nat} {p : UpdatePayload}
    {stack0 : EdgeStack} {related0 : List Nat} {gres : EdgeStack × List Nat × DataState}
    (h0 : lookupN st.db.edgeStacks sid = some stack0)
    (h1 : edgeStackRelatedEndpoints stack0.edgeGroups st.db.endpoints st.db.edgeGroups = Except.ok related0)
    (h2 : groupsStep st.db stack0 related0 p = Except.ok gres)
    (h3 : hasWrongEnvironmentType gres.2.2.endpoints gres.2.1 p.deploymentType = Except.ok true) :
    updateEdgeStack st sid p =
      (Except.error ⟨HErrorClass.badRequest, "edge stack with config do not match the environment type"⟩,
       { st with db := gres.2.2, disk := (typeStep gres.1 p st.disk).2 }) := by
  simp only [updateEdgeStack, h0, h1, h2, h3]

/-- C4: for every update in which the requested version is unset (nil) or
equal to the stored version, the stack's status map after the update
equals the status map before the update, and the stored version is
unchanged. -/
theorem updateEdgeStack_version_frame (st : SysState) (sid : Nat) (p : UpdatePayload)
    (stack0 stack' : EdgeStack) (st' : SysState)
    (hstack : lookupN st.db.edgeStacks sid = some stack0)
    (hv : p.version = none ∨ p.version = some stack0.version)
    (hrun : updateEdgeStack st sid p = (Except.ok stack', st')) :
    stack'.status = stack0.status ∧ stack'.version = stack0.version := by
  obtain ⟨s0, r0, gres, cres, h0, h1, h2, h3, h4, h5, h6⟩ := updateEdgeStack_ok_elim hrun
  rw [hstack] at h0
  injection h0 with h0
  subst h0
  obtain ⟨gid, gdt, gep, gmp, gver, gst, gpp, gumn, gnum, gdb1, gdb2, gdb3⟩ := groupsStep_fields h2
  obtain ⟨tid, tgr, tver, tst, tnum, tpp, tumn⟩ := typeStep_fields gres.1 p st.disk
  have hc : cres.1.version = gres.1.version ∧ cres.1.status = gres.1.status := by
    cases hdt : p.deploymentType with
    | compose =>
      rw [hdt, hasWrong_compose] at h3
      rw [contentStep_compose_ok hdt h3 h4]
      exact ⟨tver, tst⟩
    | kubernetes =>
      rw [contentStep_kubernetes_ok hdt h4]
      exact ⟨tver, tst⟩
  subst h5
  have hver0 : cres.1.version = stack0.version := hc.1.trans gver
  have hst0 : cres.1.status = stack0.status := hc.2.trans gst
  rcases hv with hv | hv
  · obtain ⟨f1, f2⟩ := @finalizeStack_version_none cres.1 gres.2.1 p hv
    exact ⟨f2.trans hst0, f1.trans hver0⟩
  · have hv' : p.version = some cres.1.version := by rw [hv, hver0]
    obtain ⟨f1, f2⟩ := finalizeStack_version_eq hv'
    exact ⟨f2.trans hst0, f1.trans hver0⟩

/-- Witness for C4: resending version 1 on the stack stored at version 1
leaves the status map and version untouched. -/
theorem updateEdgeStack_version_frame_witness :
    updateEdgeStack exState 1 exPayloadVersionSame = (Except.ok outVersionSame, outVersionSameSt) ∧
    (outVersionSame.status = exStack.status ∧ outVersionSame.version = exStack.version) :=
  ⟨by decide,
   updateEdgeStack_version_frame exState 1 exPayloadVersionSame exStack outVersionSame
     outVersionSameSt (by decide) (Or.inr (by decide)) (by decide)⟩
/-- C5: for every update in which the requested version is non-nil and
differs from the stored version, the persisted stack has its version set
to the requested value and an empty status map regardless of the map's
prior contents, and both changes land in the single stack persist of the
run (the persist count rises by exactly one and the stored record is the
returned one). -/
theorem updateEdgeStack_version_bump_resets (st : SysState) (sid : Nat) (p : UpdatePayload)
    (stack0 stack' : EdgeStack) (st' : SysState) (v : Int)
    (hstack : lookupN st.db.edgeStacks sid = some stack0)
    (hid : stack0.id = sid)
    (hv : p.version = some v) (hne : v ≠ stack0.version)
    (hrun : updateEdgeStack st sid p = (Except.ok stack', st')) :
    stack'.version = v ∧ stack'.status = [] ∧
    lookupN st'.db.edgeStacks sid = some stack' ∧
    st'.stackWrites = st.stackWrites + 1 := by
  obtain ⟨s0, r0, gres, cres, h0, h1, h2, h3, h4, h5, h6⟩ := updateEdgeStack_ok_elim hrun
  rw [hstack] at h0
  injection h0 with h0
  subst h0
  obtain ⟨gid, gdt, gep, gmp, gver, gst, gpp, gumn, gnum, gdb1, gdb2, gdb3⟩ := groupsStep_fields h2
  obtain ⟨tid, tgr, tver, tst, tnum, tpp, tumn⟩ := typeStep_fields gres.1 p st.disk
  have hcv : cres.1.version = stack0.version ∧ cres.1.id = stack0.id := by
    cases hdt : p.deploymentType with
    | compose =>
      rw [hdt, hasWrong_compose] at h3
      rw [contentStep_compose_ok hdt h3 h4]
      exact ⟨tver.trans gver, tid.trans gid⟩
    | kubernetes =>
      rw [contentStep_kubernetes_ok hdt h4]
      exact ⟨tver.trans gver, tid.trans gid⟩
  have hne' : v ≠ cres.1.version := by rw [hcv.1]; exact hne
  obtain ⟨f1, f2⟩ := @finalizeStack_version_ne cres.1 gres.2.1 p v hv hne'
  subst h5
  subst h6
  refine ⟨f1, f2, ?_, rfl⟩
  have hfid : (finalizeStack cres.1 gres.2.1 p).id = sid := by
    rw [(finalizeStack_fields cres.1 gres.2.1 p).1, hcv.2, hid]
  show lookupN (setN gres.2.2.edgeStacks (finalizeStack cres.1 gres.2.1 p).id
    (finalizeStack cres.1 gres.2.1 p)) sid = some (finalizeStack cres.1 gres.2.1 p)
  rw [hfid, gdb1]
  exact lookupN_setN_self hstack

/-- Witness for C5: bumping the version from 1 to 238 resets the status map
and persists the record once. -/
theorem updateEdgeStack_version_bump_resets_witness :
    updateEdgeStack exState 1 exPayloadVersionBump = (Except.ok outVersionBump, outVersionBumpSt) ∧
    (outVersionBump.version = 238 ∧ outVersionBump.status = [] ∧
     lookupN outVersionBumpSt.db.edgeStacks 1 = some outVersionBump ∧
     outVersionBumpSt.stackWrites = exState.stackWrites + 1) :=
  ⟨by decide,
   updateEdgeStack_version_bump_resets exState 1 exPayloadVersionBump exStack outVersionBump
     outVersionBumpSt 238 (by decide) (by decide) (by decide) (by decide) (by decide)⟩

/-- C6: for every successful update whose requested deployment type differs
from the stored one, the entry-point and manifest-path fields are cleared
and the field of the new type is set to its default file name; the stack
ends on the requested type. -/
theorem updateEdgeStack_type_change_resets (st : SysState) (sid : Nat) (p : UpdatePayload)
    (stack0 stack' : EdgeStack) (st' : SysState)
    (hstack : lookupN st.db.edgeStacks sid = some stack0)
    (hchg : stack0.deploymentType ≠ p.deploymentType)
    (hrun : updateEdgeStack st sid p = (Except.ok stack', st')) :
    stack'.deploymentType = p.deploymentType ∧
    (p.deploymentType = DeploymentType.compose →
      stack'.entryPoint = composeFileDefaultName ∧ stack'.manifestPath = "") ∧
    (p.deploymentType = DeploymentType.kubernetes →
      stack'.manifestPath = manifestFileDefaultName ∧ stack'.entryPoint = "") := by
  obtain ⟨s0, r0, gres, cres, h0, h1, h2, h3, h4, h5, h6⟩ := updateEdgeStack_ok_elim hrun
  rw [hstack] at h0
  injection h0 with h0
  subst h0
  obtain ⟨gid, gdt, gep, gmp, gver, gst, gpp, gumn, gnum, gdb1, gdb2, gdb3⟩ := groupsStep_fields h2
  have hchg1 : gres.1.deploymentType ≠ p.deploymentType := by rw [gdt]; exact hchg
  obtain ⟨tep, tmp, tdisk⟩ := typeStep_changed st.disk hchg1
  obtain ⟨ffid, ffgr, ffdt, ffep, ffmp, ffumn, ffpp, ffnum⟩ := finalizeStack_fields cres.1 gres.2.1 p
  subst h5
  have hdtp : cres.1.deploymentType = p.deploymentType := by
    cases hdt : p.deploymentType with
    | compose =>
      rw [hdt, hasWrong_compose] at h3
      rw [contentStep_compose_ok hdt h3 h4]
      exact (typeStep_deploymentType gres.1 p st.disk).trans hdt
    | kubernetes =>
      rw [contentStep_kubernetes_ok hdt h4]
      exact (typeStep_deploymentType gres.1 p st.disk).trans hdt
  refine ⟨ffdt.trans hdtp, ?_, ?_⟩
  · intro hdt
    rw [hdt, hasWrong_compose] at h3
    have hcres := contentStep_compose_ok hdt h3 h4
    constructor
    · rw [ffep, hcres]
      simp [tep]
    · rw [ffmp, hcres]
  · intro hdt
    have hcres := contentStep_kubernetes_ok hdt h4
    constructor
    · rw [ffmp, hcres]
      simp [tmp]
    · rw [ffep, hcres]
      exact tep

/-- Witness for C6: switching the compose stack to kubernetes on the
kubernetes endpoint clears the entry point and defaults the manifest. -/
theorem updateEdgeStack_type_change_resets_witness :
    updateEdgeStack exState 1 exPayloadTypeChange = (Except.ok outTypeChange, outTypeChangeSt) ∧
    (outTypeChange.deploymentType = exPayloadTypeChange.deploymentType ∧
     (exPayloadTypeChange.deploymentType = DeploymentType.compose →
       outTypeChange.entryPoint = composeFileDefaultName ∧ outTypeChange.manifestPath = "") ∧
     (exPayloadTypeChange.deploymentType = DeploymentType.kubernetes →
       outTypeChange.manifestPath = manifestFileDefaultName ∧ outTypeChange.entryPoint = "")) :=
  ⟨by decide,
   updateEdgeStack_type_change_resets exState 1 exPayloadTypeChange exStack outTypeChange
     outTypeChangeSt (by decide) (by decide) (by decide)⟩

/-- C8: the consistency invariant between the deployment type and the
entry-point and manifest-path fields is preserved by every successful
update. -/
theorem updateEdgeStack_preserves_consistency (st : SysState) (sid : Nat) (p : UpdatePayload)
    (stack0 stack' : EdgeStack) (st' : SysState)
    (hstack : lookupN st.db.edgeStacks sid = some stack0)
    (hcons : stackConsistent stack0)
    (hrun : updateEdgeStack st sid p = (Except.ok stack', st')) :
    stackConsistent stack' := by
  obtain ⟨s0, r0, gres, cres, h0, h1, h2, h3, h4, h5, h6⟩ := updateEdgeStack_ok_elim hrun
  rw [hstack] at h0
  injection h0 with h0
  subst h0
  obtain ⟨gid, gdt, gep, gmp, gver, gst, gpp, gumn, gnum, gdb1, gdb2, gdb3⟩ := groupsStep_fields h2
  obtain ⟨ffid, ffgr, ffdt, ffep, ffmp, ffumn, ffpp, ffnum⟩ := finalizeStack_fields cres.1 gres.2.1 p
  subst h5
  cases hdt : p.deploymentType with
  | compose =>
    rw [hdt, hasWrong_compose] at h3
    have hcres := contentStep_compose_ok hdt h3 h4
    have hdt' : (finalizeStack cres.1 gres.2.1 p).deploymentType = DeploymentType.compose := by
      rw [ffdt, hcres]
      exact (typeStep_deploymentType gres.1 p st.disk).trans hdt
    constructor
    · intro _
      constructor
      · rw [ffep, hcres]
        by_cases he : (typeStep gres.1 p st.disk).1.entryPoint = ""
        · simp only [he, if_pos]
          decide
        · simp only [he, if_neg, ite_false]
          exact he
      · rw [ffmp, hcres]
    · intro hk
      exact DeploymentType.noConfusion (hdt'.symm.trans hk)
  | kubernetes =>
    have hcres := contentStep_kubernetes_ok hdt h4
    have hdt' : (finalizeStack cres.1 gres.2.1 p).deploymentType = DeploymentType.kubernetes := by
      rw [ffdt, hcres]
      exact (typeStep_deploymentType gres.1 p st.disk).trans hdt
    constructor
    · intro hc
      exact DeploymentType.noConfusion (hdt'.symm.trans hc)
    · intro _
      constructor
      · rw [ffmp, hcres]
        by_cases hm : (typeStep gres.1 p st.disk).1.manifestPath = ""
        · simp only [hm, if_pos]
          decide
        · simp only [hm, if_neg, ite_false]
          exact hm
      · rw [ffep, hcres]
        show (typeStep gres.1 p st.disk).1.entryPoint = ""
        by_cases hsame : gres.1.deploymentType = p.deploymentType
        · rw [typeStep_unchanged st.disk hsame]
          show gres.1.entryPoint = ""
          rw [gep]
          exact (hcons.2 ((gdt.symm.trans hsame).trans hdt)).2
        · exact (typeStep_changed st.disk hsame).1

/-- Witness for C8: the same-version compose update keeps the stack
consistent. -/
theorem updateEdgeStack_preserves_consistency_witness :
    stackConsistent exStack ∧
    updateEdgeStack exState 1 exPayloadVersionSame = (Except.ok outVersionSame, outVersionSameSt) ∧
    stackConsistent outVersionSame :=
  ⟨by decide, by decide,
   updateEdgeStack_preserves_consistency exState 1 exPayloadVersionSame exStack outVersionSame
     outVersionSameSt (by decide) (by decide) (by decide)⟩

/-- C9: for every successful update that supplies a group list, the
persisted stack's deployment count equals the size of the newly resolved
target environment set and the persisted group list equals the supplied
one. -/
theorem updateEdgeStack_groups_numDeployments (st : SysState) (sid : Nat) (p : UpdatePayload)
    (stack0 stack' : EdgeStack) (st' : SysState) (gs newRelated : List Nat)
    (hstack : lookupN st.db.edgeStacks sid = some stack0)
    (hid : stack0.id = sid)
    (hgs : p.edgeGroups = some gs)
    (hres : edgeStackRelatedEndpoints gs st.db.endpoints st.db.edgeGroups = Except.ok newRelated)
    (hrun : updateEdgeStack st sid p = (Except.ok stack', st')) :
    stack'.edgeGroups = gs ∧ stack'.numDeployments = newRelated.length ∧
    lookupN st'.db.edgeStacks sid = some stack' := by
  obtain ⟨s0, r0, gres, cres, h0, h1, h2, h3, h4, h5, h6⟩ := updateEdgeStack_ok_elim hrun
  rw [hstack] at h0
  injection h0 with h0
  subst h0
  obtain ⟨nr, rels1, hres', hrec, heq⟩ := groupsStep_some_elim hgs h2
  rw [hres] at hres'
  injection hres' with hres'
  subst hres'
  obtain ⟨gid, gdt, gep, gmp, gver, gst, gpp, gumn, gnum, gdb1, gdb2, gdb3⟩ := groupsStep_fields h2
  obtain ⟨ffid, ffgr, ffdt, ffep, ffmp, ffumn, ffpp, ffnum⟩ := finalizeStack_fields cres.1 gres.2.1 p
  obtain ⟨tid, tgr, tver, tst, tnum, tpp, tumn⟩ := typeStep_fields gres.1 p st.disk
  have hgr1 : gres.1.edgeGroups = gs := by rw [heq]
  have hr1 : gres.2.1 = newRelated := by rw [heq]
  have hcgr : cres.1.edgeGroups = gres.1.edgeGroups ∧ cres.1.id = gres.1.id := by
    cases hdt : p.deploymentType with
    | compose =>
      rw [hdt, hasWrong_compose] at h3
      rw [contentStep_compose_ok hdt h3 h4]
      exact ⟨tgr, tid⟩
    | kubernetes =>
      rw [contentStep_kubernetes_ok hdt h4]
      exact ⟨tgr, tid⟩
  subst h5
  refine ⟨?_, ?_, ?_⟩
  · rw [ffgr, hcgr.1, hgr1]
  · rw [ffnum, hr1]
  · subst h6
    have hfid : (finalizeStack cres.1 gres.2.1 p).id = sid := by
      rw [ffid, hcgr.2, gid, hid]
    show lookupN (setN gres.2.2.edgeStacks (finalizeStack cres.1 gres.2.1 p).id
      (finalizeStack cres.1 gres.2.1 p)) sid = some (finalizeStack cres.1 gres.2.1 p)
    rw [hfid, gdb1]
    exact lookupN_setN_self hstack

/-- Witness for C9: adding group 2 beside group 1 resolves to endpoints 1
and 2 and raises the deployment count from 1 to 2. -/
theorem updateEdgeStack_groups_numDeployments_witness :
    updateEdgeStack exState 1 exPayloadAddGroup = (Except.ok outAddGroup, outAddGroupSt) ∧
    exStack.numDeployments = 1 ∧
    (outAddGroup.edgeGroups = [1, 2] ∧ outAddGroup.numDeployments = [1, 2].length ∧
     lookupN outAddGroupSt.db.edgeStacks 1 = some outAddGroup) :=
  ⟨by decide, by decide,
   updateEdgeStack_groups_numDeployments exState 1 exPayloadAddGroup exStack outAddGroup
     outAddGroupSt [1, 2] [1, 2] (by decide) (by decide) (by decide) (by decide) (by decide)⟩

/-- C1 (amended): when the newly resolved target set contains an environment
of incompatible runtime type, the update rejects with a bad-request-class
error and never persists the stack record; however the environment-type
check runs only after relation reconciliation and after the best-effort
removal of the old project directory, so those mutations have already
happened when the rejection is raised. -/
theorem updateEdgeStack_wrongType_rejects (st : SysState) (sid : Nat) (p : UpdatePayload)
    (stack0 : EdgeStack) (related0 : List Nat) (gres : EdgeStack × List Nat × DataState)
    (h0 : lookupN st.db.edgeStacks sid = some stack0)
    (h1 : edgeStackRelatedEndpoints stack0.edgeGroups st.db.endpoints st.db.edgeGroups = Except.ok related0)
    (h2 : groupsStep st.db stack0 related0 p = Except.ok gres)
    (h3 : hasWrongEnvironmentType gres.2.2.endpoints gres.2.1 p.deploymentType = Except.ok true) :
    (updateEdgeStack st sid p).1 =
      Except.error ⟨HErrorClass.badRequest, "edge stack with config do not match the environment type"⟩ ∧
    (updateEdgeStack st sid p).2.db.edgeStacks = st.db.edgeStacks ∧
    (updateEdgeStack st sid p).2.stackWrites = st.stackWrites := by
  rw [updateEdgeStack_wrongType_eq h0 h1 h2 h3]
  exact ⟨rfl, (groupsStep_fields h2).2.2.2.2.2.2.2.2.2.1, rfl⟩

/-- Witness for C1 (amended): the kubernetes payload on the docker endpoint
2 is rejected as a bad request with the stack store untouched. -/
theorem updateEdgeStack_wrongType_rejects_witness :
    groupsStep exState.db exStack [1] exPayloadWrongType =
      Except.ok ({ exStack with edgeGroups := [2] }, [2],
        { exState.db with relations := [(1, []), (2, [(1, true)]), (3, [])] }) ∧
    ((updateEdgeStack exState 1 exPayloadWrongType).1 =
       Except.error ⟨HErrorClass.badRequest, "edge stack with config do not match the environment type"⟩ ∧
     (updateEdgeStack exState 1 exPayloadWrongType).2.db.edgeStacks = exState.db.edgeStacks ∧
     (updateEdgeStack exState 1 exPayloadWrongType).2.stackWrites = exState.stackWrites) :=
  ⟨by decide,
   updateEdgeStack_wrongType_rejects exState 1 exPayloadWrongType exStack [1]
     ({ exStack with edgeGroups := [2] }, [2],
      { exState.db with relations := [(1, []), (2, [(1, true)]), (3, [])] })
     (by decide) (by decide) (by decide) (by decide)⟩

/-- Counterexample for C1 as stated: on the wrong-type update the handler
rejects with a bad request, but the relation records and the on-disk
project directory were already mutated before the check ran; the
transactional wrapper restores the database but not the disk. -/
theorem updateEdgeStack_wrongType_mutates_before_check :
    (updateEdgeStack exState 1 exPayloadWrongType).1 =
      Except.error ⟨HErrorClass.badRequest, "edge stack with config do not match the environment type"⟩ ∧
    (updateEdgeStack exState 1 exPayloadWrongType).2.db.relations ≠ exState.db.relations ∧
    (updateEdgeStack exState 1 exPayloadWrongType).2.disk ≠ exState.disk ∧
    (edgeStackUpdateTx exState 1 exPayloadWrongType).2.db = exState.db ∧
    (edgeStackUpdateTx exState 1 exPayloadWrongType).2.disk ≠ exState.disk := by
  decide

/-- C7 (amended): an update payload referencing a group ID that does not
exist fails with an internal-server-class error (the class the handler's
own test expects) and aborts before any relation or stack mutation: the
whole system state is returned unchanged. -/
theorem updateEdgeStack_unknownGroup_aborts (st : SysState) (sid : Nat) (p : UpdatePayload)
    (stack0 : EdgeStack) (related0 : List Nat) (gs : List Nat) (err : String)
    (h0 : lookupN st.db.edgeStacks sid = some stack0)
    (h1 : edgeStackRelatedEndpoints stack0.edgeGroups st.db.endpoints st.db.edgeGroups = Except.ok related0)
    (hgs : p.edgeGroups = some gs)
    (h2 : edgeStackRelatedEndpoints gs st.db.endpoints st.db.edgeGroups = Except.error err) :
    updateEdgeStack st sid p =
      (Except.error ⟨HErrorClass.internalServerError,
        "Unable to retrieve edge stack related environments from database"⟩, st) := by
  have hg : groupsStep st.db stack0 related0 p =
      Except.error ⟨HErrorClass.internalServerError,
        "Unable to retrieve edge stack related environments from database"⟩ := by
    simp only [groupsStep, hgs, h2]
  simp only [updateEdgeStack, h0, h1, hg]

/-- Witness for C7 (amended): the payload naming group 9999 fails with the
internal-server error and leaves the state untouched. -/
theorem updateEdgeStack_unknownGroup_aborts_witness :
    edgeStackRelatedEndpoints [9999] exState.db.endpoints exState.db.edgeGroups =
      Except.error "edge group was not found" ∧
    updateEdgeStack exState 1 exPayloadUnknownGroup =
      (Except.error ⟨HErrorClass.internalServerError,
        "Unable to retrieve edge stack related environments from database"⟩, exState) :=
  ⟨by decide,
   updateEdgeStack_unknownGroup_aborts exState 1 exPayloadUnknownGroup exStack [1] [9999]
     "edge group was not found" (by decide) (by decide) (by decide) (by decide)⟩

/-- Counterexample for C7 as stated: the unknown-group failure carries the
internal-server error class, not the bad-request class, matching the
handler's test which expects a 500 status. -/
theorem updateEdgeStack_unknownGroup_not_badRequest :
    (updateEdgeStack exState 1 exPayloadUnknownGroup).1 =
      Except.error ⟨HErrorClass.internalServerError,
        "Unable to retrieve edge stack related environments from database"⟩ ∧
    HErrorClass.internalServerError ≠ HErrorClass.badRequest ∧
    (updateEdgeStack exState 1 exPayloadUnknownGroup).2 = exState := by
  decide
/-! ## Migration lemmas -/

theorem dupRegistryIds_subset : ∀ (l : List Registry) (x : Nat),
    x ∈ dupRegistryIds l → x ∈ l.map (fun r => r.id) := by
  intro l
  induction l with
  | nil => intro x h; cases h
  | cons r rest ih =>
    intro x h
    cases hm : matchesMigratedRegistry r with
    | true =>
      simp only [dupRegistryIds, hm, if_true] at h
      obtain ⟨y, hy, hyid⟩ := List.mem_map.mp h
      rw [List.map_cons]
      exact List.mem_cons_of_mem _ (hyid ▸ List.mem_map_of_mem _ (List.mem_of_mem_filter hy))
    | false =>
      simp only [dupRegistryIds, hm, Bool.false_eq_true, if_false] at h
      rw [List.map_cons]
      exact List.mem_cons_of_mem _ (ih x h)

theorem scanRegistries_migrated (l : List Registry) :
    ∀ store : List Registry,
      scanRegistries l true store =
        (true, store.filter
          (fun x => !(decide (x.id ∈ (l.filter matchesMigratedRegistry).map (fun r => r.id))))) := by
  induction l with
  | nil =>
    intro store
    simp [scanRegistries]
  | cons r rest ih =>
    intro store
    cases hm : matchesMigratedRegistry r with
    | true =>
      simp only [scanRegistries, hm, if_true]
      rw [ih]
      refine congrArg (Prod.mk true) ?_
      rw [deleteRegistry, List.filter_filter]
      have hpred : (fun a : Registry =>
          (!(decide (a.id ∈ (rest.filter matchesMigratedRegistry).map (fun r => r.id)))) &&
            (!(a.id == r.id))) =
          (fun a : Registry =>
            !(decide (a.id ∈ ((r :: rest).filter matchesMigratedRegistry).map (fun r => r.id)))) := by
        funext a
        by_cases h1 : a.id = r.id <;>
          by_cases h2 : a.id ∈ (rest.filter matchesMigratedRegistry).map (fun r => r.id) <;>
            simp [List.filter_cons, hm, h1, h2]
      rw [hpred]
    | false =>
      simp only [scanRegistries, hm, Bool.false_eq_true, if_false]
      rw [ih]
      have hf : List.filter matchesMigratedRegistry (r :: rest) =
          List.filter matchesMigratedRegistry rest := by
        simp [List.filter_cons, hm]
      rw [hf]

theorem scanRegistries_start (l : List Registry) :
    ∀ store : List Registry,
      scanRegistries l false store =
        (l.any matchesMigratedRegistry,
         store.filter (fun x => !(decide (x.id ∈ dupRegistryIds l)))) := by
  induction l with
  | nil =>
    intro store
    simp [scanRegistries, dupRegistryIds]
  | cons r rest ih =>
    intro store
    cases hm : matchesMigratedRegistry r with
    | true =>
      simp only [scanRegistries, hm, if_true, Bool.false_eq_true, if_false]
      rw [scanRegistries_migrated]
      have hd : dupRegistryIds (r :: rest) =
          (rest.filter matchesMigratedRegistry).map (fun x => x.id) := by
        simp [dupRegistryIds, hm]
      rw [hd, List.any_cons, hm]
      simp
    | false =>
      simp only [scanRegistries, hm, Bool.false_eq_true, if_false]
      rw [ih]
      simp [dupRegistryIds, hm, List.any_cons]

theorem filter_dupRegistryIds_eq_keepFirstMatching :
    ∀ l : List Registry, (l.map (fun r => r.id)).Nodup →
      l.filter (fun x => !(decide (x.id ∈ dupRegistryIds l))) = keepFirstMatching l := by
  intro l
  induction l with
  | nil => intro _; rfl
  | cons r rest ih =>
    intro hnd
    rw [List.map_cons, List.nodup_cons] at hnd
    obtain ⟨hr, hnd2⟩ := hnd
    cases hm : matchesMigratedRegistry r with
    | true =>
      have hdup : dupRegistryIds (r :: rest) =
          (rest.filter matchesMigratedRegistry).map (fun x => x.id) := by
        simp [dupRegistryIds, hm]
      have hkeep : keepFirstMatching (r :: rest) =
          r :: rest.filter (fun x => !(matchesMigratedRegistry x)) := by
        simp [keepFirstMatching, hm]
      have hrid : r.id ∉ (rest.filter matchesMigratedRegistry).map (fun x => x.id) := by
        intro hc
        apply hr
        obtain ⟨y, hy, hyid⟩ := List.mem_map.mp hc
        exact hyid ▸ List.mem_map_of_mem _ (List.mem_of_mem_filter hy)
      rw [hdup, hkeep, List.filter_cons]
      simp only [hrid, decide_False, Bool.not_false, if_true]
      refine congrArg (List.cons r) ?_
      apply List.filter_congr
      intro x hx
      by_cases hmx : matchesMigratedRegistry x = true
      · have : x.id ∈ (rest.filter matchesMigratedRegistry).map (fun y => y.id) :=
          List.mem_map_of_mem _ (List.mem_filter.mpr ⟨hx, hmx⟩)
        simp [this, hmx]
      · have : x.id ∉ (rest.filter matchesMigratedRegistry).map (fun y => y.id) := by
          intro hc
          obtain ⟨y, hy, hyid⟩ := List.mem_map.mp hc
          obtain ⟨hy1, hy2⟩ := List.mem_filter.mp hy
          have hxy : y = x := List.inj_on_of_nodup_map hnd2 hy1 hx hyid
          exact hmx (hxy ▸ hy2)
        simp [this, hmx]
    | false =>
      have hdup : dupRegistryIds (r :: rest) = dupRegistryIds rest := by
        simp [dupRegistryIds, hm]
      have hkeep : keepFirstMatching (r :: rest) = r :: keepFirstMatching rest := by
        simp [keepFirstMatching, hm]
      have hrid : r.id ∉ dupRegistryIds rest := fun hc => hr (dupRegistryIds_subset rest r.id hc)
      rw [hdup, hkeep, List.filter_cons]
      simp only [hrid, decide_False, Bool.not_false, if_true]
      exact congrArg (List.cons r) (ih hnd2)

theorem keepFirstMatching_sublist : ∀ l : List Registry, (keepFirstMatching l).Sublist l := by
  intro l
  induction l with
  | nil => exact List.Sublist.refl []
  | cons r rest ih =>
    cases hm : matchesMigratedRegistry r with
    | true =>
      simp only [keepFirstMatching, hm, if_true]
      exact List.Sublist.cons₂ r (List.filter_sublist rest)
    | false =>
      simp only [keepFirstMatching, hm, Bool.false_eq_true, if_false]
      exact List.Sublist.cons₂ r ih

theorem keepFirstMatching_countP : ∀ l : List Registry,
    l.any matchesMigratedRegistry = true →
    (keepFirstMatching l).countP matchesMigratedRegistry = 1 := by
  intro l
  induction l with
  | nil => intro h; simp at h
  | cons r rest ih =>
    intro h
    cases hm : matchesMigratedRegistry r with
    | true =>
      have hzero : (rest.filter (fun x => !(matchesMigratedRegistry x))).countP
          matchesMigratedRegistry = 0 := by
        apply List.countP_eq_zero.mpr
        intro a ha
        have hna := (List.mem_filter.mp ha).2
        simp only [Bool.not_eq_true'] at hna
        simp [hna]
      simp [keepFirstMatching, hm, List.countP_cons, hzero]
    | false =>
      have hrest : rest.any matchesMigratedRegistry = true := by
        rw [List.any_cons, hm] at h
        simpa using h
      simp [keepFirstMatching, hm, List.countP_cons, ih hrest]
/-- C10: the Dockerhub registry migration is idempotent: when a registry
matching the migrated entry's type, name, URL and authentication flag
already exists, running `updateDockerhubToDB32` again creates no new
registry, keeps exactly the first matching entry, deletes every later
duplicate, and leaves exactly one matching entry behind. -/
theorem updateDockerhubToDB32_idempotent (m : MigratorState) (d : DockerHub)
    (hd : m.dockerhub = some d) (hauth : d.authentication = true)
    (hnd : (m.registries.map (fun r => r.id)).Nodup)
    (hmatch : m.registries.any matchesMigratedRegistry = true) :
    updateDockerhubToDB32 m = Except.ok { m with registries := keepFirstMatching m.registries } ∧
    (keepFirstMatching m.registries).Sublist m.registries ∧
    (keepFirstMatching m.registries).countP matchesMigratedRegistry = 1 := by
  have hscan : scanRegistries m.registries false m.registries =
      (true, keepFirstMatching m.registries) := by
    rw [scanRegistries_start, hmatch, filter_dupRegistryIds_eq_keepFirstMatching m.registries hnd]
  refine ⟨?_, keepFirstMatching_sublist m.registries, keepFirstMatching_countP m.registries hmatch⟩
  simp only [updateDockerhubToDB32, hd, hauth, Bool.not_true, Bool.false_eq_true, if_false, hscan]
  exact if_pos trivial

/-- Witness for C10: a state with one unrelated registry and three migrated
duplicates keeps only the first duplicate. -/
theorem updateDockerhubToDB32_idempotent_witness :
    exMigState.dockerhub = some ⟨true, "u", "p"⟩ ∧
    (exMigState.registries.map (fun r => r.id)).Nodup ∧
    exMigState.registries.any matchesMigratedRegistry = true ∧
    keepFirstMatching exMigState.registries =
      [exRegistry 1 "other", exRegistry 2 dockerhubMigratedName] ∧
    (updateDockerhubToDB32 exMigState =
       Except.ok { exMigState with registries := keepFirstMatching exMigState.registries } ∧
     (keepFirstMatching exMigState.registries).Sublist exMigState.registries ∧
     (keepFirstMatching exMigState.registries).countP matchesMigratedRegistry = 1) :=
  ⟨by decide, by decide, by decide, by decide,
   updateDockerhubToDB32_idempotent exMigState ⟨true, "u", "p"⟩ (by decide) (by decide)
     (by decide) (by decide)⟩

end Portainer
